import Mathlib

/-!
Verification of the `ProjectHeader` component
(`packages/frontend/editor-ui/src/components/Projects/ProjectHeader.vue`).

The component's `<script setup>` block is shallowly embedded below: its
computed values (`headerIcon`, `projectPermissions`, `showSettings`,
`homeProject`, `showFolders`, `createWorkflowButton`, `menu`) become pure
Lean functions of the reactive state, and the `actions` / `onSelect`
handlers become functions producing a list of effects (router navigations
and event emissions), together with a step function applying those effects
to the world.

External collaborators that are not part of the source slice (the
permissions resolver `getResourcePermissions`, the localization provider
`i18n.baseText`, and the router) are modelled from the spec as abstract
pure functions / explicit effects.
-/

namespace ProjectHeader

/-- `ProjectIcon` kind: the source type is `{ type: 'icon' | 'emoji'; value: string }`. -/
inductive IconKind where
  | icon
  | emoji
deriving DecidableEq

/-- A project icon descriptor, as in `ProjectIconType`. -/
structure ProjectIcon where
  type : IconKind
  value : String
deriving DecidableEq

/-- Project types compared against in the source (`ProjectTypes.Personal`,
`ProjectTypes.Team`); `other` covers any further type value. -/
inductive ProjectType where
  | Personal
  | Team
  | other
deriving DecidableEq

/-- A project as read from the projects store: identifier, display name
(nullable, tested for truthiness in the source), type, optional icon, and
optional permission scopes (scope tokens are strings). -/
structure Project where
  id : String
  name : Option String
  type : ProjectType
  icon : Option ProjectIcon
  scopes : Option (List String)
deriving DecidableEq

/-- Per-resource capability record: the component reads only the `create`
and `update` fields. -/
structure ScopePerms where
  create : Bool
  update : Bool
deriving DecidableEq

/-- The capability record returned by the permissions resolver, restricted
to the resources the component reads (`project`, `workflow`, `credential`,
`folder`). -/
structure ResourcePermissions where
  project : ScopePerms
  workflow : ScopePerms
  credential : ScopePerms
  folder : ScopePerms
deriving DecidableEq

/-- Route names compared against in the source (`VIEWS.*`); `other` covers
any further route. -/
inductive RouteName where
  | PROJECTS_WORKFLOWS
  | PROJECTS_FOLDERS
  | NEW_WORKFLOW
  | PROJECTS_CREDENTIALS
  | PROJECT_SETTINGS
  | other (s : String)
deriving DecidableEq

/-- The route path parameters the component reads or writes
(`projectId`, `folderId`, `credentialId`); `none` models an absent
(undefined) parameter. -/
structure RouteParams where
  projectId : Option String
  folderId : Option String
  credentialId : Option String
deriving DecidableEq

/-- The route query parameters the component writes (`projectId`,
`parentFolderId`). -/
structure RouteQuery where
  projectId : Option String
  parentFolderId : Option String
deriving DecidableEq

/-- The current route: name (possibly unset), path parameters, query. -/
structure Route where
  name : Option RouteName
  params : RouteParams
  query : RouteQuery
deriving DecidableEq

/-- The external store state the component reads: the projects store
(current and personal project, both nullable), the source-control store
(`preferences.branchReadOnly`) and the settings store
(`isFoldersFeatureEnabled`). -/
structure Stores where
  currentProject : Option Project
  personalProject : Option Project
  branchReadOnly : Bool
  isFoldersFeatureEnabled : Bool
deriving DecidableEq

/-- The event the component can emit to its parent (`createFolder`, no
payload). -/
inductive EmittedEvent where
  | createFolder
deriving DecidableEq

/-- The reactive world visible to the component: store state, the current
route, and the events emitted so far. -/
structure World where
  stores : Stores
  route : Route
  emitted : List EmittedEvent
deriving DecidableEq

/-- Modelled from the spec: the permissions resolver
(`getResourcePermissions`, from `@/permissions`, not in the source slice)
is a pure function mapping an optional scope list to a capability record
with boolean fields per resource action, and the localization provider
(`i18n.baseText`) is a pure function mapping a message key to localized
text. Both are kept abstract as fields of this environment. -/
structure Env where
  getResourcePermissions : Option (List String) → ResourcePermissions
  baseText : String → String

/-- JavaScript truthiness of an optional string: `undefined`/`null` and
the empty string are falsy. -/
def strTruthy : Option String → Bool
  | none => false
  | some s => !(s = "")

/-- The `headerIcon` computed: user icon for a Personal current project,
the project's own icon (default layer icon) for a named project, home icon
otherwise. -/
def headerIcon (w : World) : ProjectIcon :=
  match w.stores.currentProject with
  | some p =>
    if p.type = ProjectType.Personal then
      { type := IconKind.icon, value := "user" }
    else if strTruthy p.name then
      p.icon.getD { type := IconKind.icon, value := "layer-group" }
    else
      { type := IconKind.icon, value := "home" }
  | none => { type := IconKind.icon, value := "home" }

/-- The `projectName` computed: localized overview label with no current
project, localized personal label for a Personal project, else the
project's raw (nullable) name. -/
def projectName (env : Env) (w : World) : Option String :=
  match w.stores.currentProject with
  | none => some (env.baseText ("projects.menu.overview"))
  | some p =>
    if p.type = ProjectType.Personal then
      some (env.baseText ("projects.menu.personal"))
    else
      p.name

/-- The `projectPermissions` computed:
`getResourcePermissions(projectsStore.currentProject?.scopes).project`. -/
def projectPermissions (env : Env) (w : World) : ScopePerms :=
  (env.getResourcePermissions (w.stores.currentProject.bind Project.scopes)).project

/-- The `showSettings` computed: route has a (truthy) `projectId` param,
the current project's resolved `project.update` permission holds, and the
current project's type is Team. -/
def showSettings (env : Env) (w : World) : Bool :=
  strTruthy w.route.params.projectId
    && (projectPermissions env w).update
    && (match w.stores.currentProject with
        | some p => decide (p.type = ProjectType.Team)
        | none => false)

/-- The `homeProject` computed:
`projectsStore.currentProject ?? projectsStore.personalProject`. -/
def homeProject (w : World) : Option Project :=
  match w.stores.currentProject with
  | some p => some p
  | none => w.stores.personalProject

/-- The `showFolders` computed: folders feature flag enabled and the route
name is in `[VIEWS.PROJECTS_WORKFLOWS, VIEWS.PROJECTS_FOLDERS]`. -/
def showFolders (w : World) : Bool :=
  w.stores.isFoldersFeatureEnabled
    && decide (w.route.name = some RouteName.PROJECTS_WORKFLOWS
        ∨ w.route.name = some RouteName.PROJECTS_FOLDERS)

/-- The three creation action kinds (`ACTION_TYPES`). -/
inductive ActionType where
  | workflow
  | credential
  | folder
deriving DecidableEq

/-- A menu action descriptor (`UserAction`): value, label, disabled flag. -/
structure UserAction where
  value : ActionType
  label : String
  disabled : Bool
deriving DecidableEq

/-- The create-workflow button descriptor, with its extra `icon` and
`size` props. -/
structure CreateButton where
  value : ActionType
  label : String
  icon : Option String
  size : String
  disabled : Bool
deriving DecidableEq

/-- The `createWorkflowButton` computed. -/
def createWorkflowButton (env : Env) (w : World) : CreateButton :=
  { value := ActionType.workflow
  , label := env.baseText ("projects.header.create.workflow")
  , icon := if w.stores.branchReadOnly then some ("lock") else none
  , size := "mini"
  , disabled := w.stores.branchReadOnly
      || !(env.getResourcePermissions ((homeProject w).bind Project.scopes)).workflow.create }

/-- The `menu` computed: always the credential item, plus the folder item
when `showFolders` holds. -/
def menu (env : Env) (w : World) : List UserAction :=
  let items : List UserAction :=
    [ { value := ActionType.credential
      , label := env.baseText ("projects.header.create.credential")
      , disabled := w.stores.branchReadOnly
          || !(env.getResourcePermissions ((homeProject w).bind Project.scopes)).credential.create } ]
  if showFolders w then
    items ++
      [ { value := ActionType.folder
        , label := env.baseText ("projects.header.create.folder")
        , disabled := w.stores.branchReadOnly
            || !(env.getResourcePermissions ((homeProject w).bind Project.scopes)).folder.create } ]
  else
    items

/-- A navigation target passed to `router.push`. -/
inductive RouteTarget where
  | newWorkflow (queryProjectId : String) (queryParentFolderId : Option String)
  | projectsCredentials (paramProjectId : String) (paramCredentialId : String)
deriving DecidableEq

/-- An effect dispatched by the component: a router navigation or the
`createFolder` emission. -/
inductive Effect where
  | navigate (t : RouteTarget)
  | emitCreateFolder
deriving DecidableEq

/-- The `actions` record: the effect dispatched for each action type,
given the project id `onSelect` passes in. The workflow action navigates
to the new-workflow view with `projectId` and the current route's
`folderId` as query parameters; the credential action navigates to the
credentials view with `projectId` and `credentialId = "create"` as path
parameters; the folder action emits `createFolder` (ignoring the id). -/
def runAction (w : World) : ActionType → String → Effect
  | ActionType.workflow, projectId =>
      Effect.navigate (RouteTarget.newWorkflow projectId w.route.params.folderId)
  | ActionType.credential, projectId =>
      Effect.navigate (RouteTarget.projectsCredentials projectId ("create"))
  | ActionType.folder, _ => Effect.emitCreateFolder

/-- The `onSelect` handler: a no-op (no effects) when no home project is
resolvable, otherwise the selected action's effect with the home project's
id. -/
def onSelect (w : World) (a : ActionType) : List Effect :=
  match homeProject w with
  | none => []
  | some p => [runAction w a p.id]

/-- Modelled from the spec: the router exposes the current route and a
navigation function taking a target descriptor. Resolving a pushed target
yields the new current route with the pushed name, parameters and query. -/
def routeOfTarget : RouteTarget → Route
  | RouteTarget.newWorkflow pid parent =>
      { name := some RouteName.NEW_WORKFLOW
      , params := { projectId := none, folderId := none, credentialId := none }
      , query := { projectId := some pid, parentFolderId := parent } }
  | RouteTarget.projectsCredentials pid cid =>
      { name := some RouteName.PROJECTS_CREDENTIALS
      , params := { projectId := some pid, folderId := none, credentialId := some cid }
      , query := { projectId := none, parentFolderId := none } }

/-- Applying one dispatched effect to the world: navigation replaces the
current route; emission appends the event. Store state is untouched. -/
def applyEffect (w : World) : Effect → World
  | Effect.navigate t => { w with route := routeOfTarget t }
  | Effect.emitCreateFolder => { w with emitted := w.emitted ++ [EmittedEvent.createFolder] }

/-- A full selection step: dispatch `onSelect`'s effects against the
world. -/
def dispatchSelect (w : World) (a : ActionType) : World :=
  (onSelect w a).foldl applyEffect w

/-- The resolver's output for the home project's scopes, as consulted by
the `disabled` flags. -/
def homeScopePermissions (env : Env) (w : World) : ResourcePermissions :=
  env.getResourcePermissions ((homeProject w).bind Project.scopes)

/-- The `create` field of the capability record corresponding to an
action type. -/
def resourceCreate (r : ResourcePermissions) : ActionType → Bool
  | ActionType.workflow => r.workflow.create
  | ActionType.credential => r.credential.create
  | ActionType.folder => r.folder.create

/-- The create permission corresponding to an action type, resolved from
the home project's scopes. -/
def createPermFor (env : Env) (w : World) (a : ActionType) : Bool :=
  resourceCreate (homeScopePermissions env w) a

/-- An action is disallowed when the branch is read-only or its create
permission is absent. -/
def actionDisallowed (env : Env) (w : World) (a : ActionType) : Bool :=
  w.stores.branchReadOnly || !(createPermFor env w a)

/-! ### Concrete sample states used by witnesses and counterexamples -/

/-- A capability record granting everything. -/
def permsFull : ScopePerms := { create := true, update := true }

/-- A capability record granting nothing. -/
def permsEmpty : ScopePerms := { create := false, update := false }

/-- An environment whose resolver grants every capability and whose
localization is the identity on keys. -/
def envAll : Env :=
  { getResourcePermissions := fun _ =>
      { project := permsFull, workflow := permsFull
      , credential := permsFull, folder := permsFull }
  , baseText := fun k => k }

/-- An environment whose resolver grants no capability. -/
def envNone : Env :=
  { getResourcePermissions := fun _ =>
      { project := permsEmpty, workflow := permsEmpty
      , credential := permsEmpty, folder := permsEmpty }
  , baseText := fun k => k }

/-- A sample team project. -/
def teamProject : Project :=
  { id := "team-1", name := some ("Acme"), type := ProjectType.Team
  , icon := none, scopes := some [] }

/-- A sample personal project. -/
def personalProjectEx : Project :=
  { id := "personal-1", name := some ("Personal"), type := ProjectType.Personal
  , icon := none, scopes := some [] }

/-- An empty query record. -/
def emptyQuery : RouteQuery := { projectId := none, parentFolderId := none }

/-- A sample route on the project workflows view. -/
def routeWorkflows : Route :=
  { name := some RouteName.PROJECTS_WORKFLOWS
  , params := { projectId := some ("team-1"), folderId := some ("folder-9"), credentialId := none }
  , query := emptyQuery }

/-- A world on a team project's workflow list, folders feature enabled. -/
def wTeam : World :=
  { stores :=
      { currentProject := some teamProject, personalProject := some personalProjectEx
      , branchReadOnly := false, isFoldersFeatureEnabled := true }
  , route := routeWorkflows, emitted := [] }

/-- `wTeam` with a read-only source-control branch. -/
def wReadOnly : World :=
  { wTeam with stores := { wTeam.stores with branchReadOnly := true } }

/-- An overview world: no current project, a personal project present. -/
def wOverview : World :=
  { stores :=
      { currentProject := none, personalProject := some personalProjectEx
      , branchReadOnly := false, isFoldersFeatureEnabled := false }
  , route := { name := none
             , params := { projectId := none, folderId := none, credentialId := none }
             , query := emptyQuery }
  , emitted := [] }

/-- A world with neither a current nor a personal project. -/
def wEmpty : World :=
  { stores :=
      { currentProject := none, personalProject := none
      , branchReadOnly := false, isFoldersFeatureEnabled := false }
  , route := { name := none
             , params := { projectId := none, folderId := none, credentialId := none }
             , query := emptyQuery }
  , emitted := [] }

/-- A world whose current project is the personal project and whose route
carries its project id. -/
def wPersonalCurrent : World :=
  { stores :=
      { currentProject := some personalProjectEx, personalProject := some personalProjectEx
      , branchReadOnly := false, isFoldersFeatureEnabled := false }
  , route := { name := some RouteName.PROJECTS_WORKFLOWS
             , params := { projectId := some ("personal-1"), folderId := none, credentialId := none }
             , query := emptyQuery }
  , emitted := [] }

/-- The credential menu item as rendered in `wReadOnly` under `envAll`. -/
def credentialItemRO : UserAction :=
  { value := ActionType.credential
  , label := "projects.header.create.credential"
  , disabled := true }

/-- The credential menu item as rendered in `wTeam` under `envAll`. -/
def credentialItemOk : UserAction :=
  { value := ActionType.credential
  , label := "projects.header.create.credential"
  , disabled := false }

/-! ### Helper lemmas -/

/-- Every item of the rendered `menu` carries as its `disabled` flag
exactly the disallowed test for its action type. -/
theorem menu_mem_disabled (env : Env) (w : World) :
    ∀ a ∈ menu env w, a.disabled = actionDisallowed env w a.value := by
  intro a ha
  cases hsf : showFolders w <;>
    simp [menu, hsf] at ha
  · subst ha
    simp [actionDisallowed, createPermFor, resourceCreate, homeScopePermissions]
  · rcases ha with ha | ha <;> subst ha <;>
      simp [actionDisallowed, createPermFor, resourceCreate, homeScopePermissions]

/-! ### Claims -/

/-- C1: for every combination of the branch-read-only flag and the
per-resource create permissions, the `disabled` flag of the
create-workflow button and of each rendered menu item (credential, and
folder when shown) equals the OR of the branch-read-only flag and the
negation of the corresponding resource's create permission. -/
theorem C1_action_disabled_eq_readonly_or_no_create (env : Env) (w : World) :
    (createWorkflowButton env w).disabled
        = (w.stores.branchReadOnly || !(homeScopePermissions env w).workflow.create)
    ∧ ∀ a ∈ menu env w,
        a.disabled = (w.stores.branchReadOnly || !(createPermFor env w a.value)) := by
  constructor
  · rfl
  · intro a ha
    rw [menu_mem_disabled env w a ha]
    rfl

/-- C1 witness: in a concrete state the button and the credential menu
item satisfy the disabled formula. -/
theorem C1_action_disabled_witness :
    ((createWorkflowButton envAll wTeam).disabled
        = (wTeam.stores.branchReadOnly || !(homeScopePermissions envAll wTeam).workflow.create))
    ∧ credentialItemOk ∈ menu envAll wTeam
    ∧ credentialItemOk.disabled
        = (wTeam.stores.branchReadOnly || !(createPermFor envAll wTeam credentialItemOk.value)) :=
  ⟨(C1_action_disabled_eq_readonly_or_no_create envAll wTeam).1,
   by decide,
   (C1_action_disabled_eq_readonly_or_no_create envAll wTeam).2 credentialItemOk (by decide)⟩

/-- C2 counterexample: the rendered menu does contain an action that is
disallowed (here: a read-only branch on `wReadOnly`); the claim that the
menu never contains such an action is false at this concrete state. -/
theorem C2_counterexample_menu_contains_disallowed :
    ¬ ∀ a ∈ menu envAll wReadOnly, actionDisallowed envAll wReadOnly a.value = false := by
  decide

/-- C2 (amended): the rendered action menu never presents an action as
enabled when the current context lacks its create permission or a
read-only source-control branch disallows it: every such contained action
carries `disabled = true`. -/
theorem C2_menu_disallowed_implies_disabled (env : Env) (w : World) :
    ∀ a ∈ menu env w, actionDisallowed env w a.value = true → a.disabled = true := by
  intro a ha hd
  rw [menu_mem_disabled env w a ha]
  exact hd

/-- C2 witness: in the concrete read-only state the credential item is in
the menu, is disallowed, and is rendered disabled. -/
theorem C2_menu_disallowed_witness :
    credentialItemRO ∈ menu envAll wReadOnly
    ∧ actionDisallowed envAll wReadOnly credentialItemRO.value = true
    ∧ credentialItemRO.disabled = true :=
  ⟨by decide, by decide,
   C2_menu_disallowed_implies_disabled envAll wReadOnly credentialItemRO (by decide) (by decide)⟩

/-- C3: `showSettings` is true iff the route params carry a (non-empty)
`projectId`, the permission set derived from the current project's scopes
grants `update`, and the current project's type is Team; in particular a
Personal current project with update permission yields false. -/
theorem C3_showSettings_iff (env : Env) (w : World) :
    (showSettings env w = true ↔
      (strTruthy w.route.params.projectId = true
        ∧ (projectPermissions env w).update = true
        ∧ Option.map Project.type w.stores.currentProject = some ProjectType.Team))
    ∧ (∀ p, w.stores.currentProject = some p → p.type = ProjectType.Personal →
        (projectPermissions env w).update = true → showSettings env w = false) := by
  constructor
  · cases h : w.stores.currentProject with
    | none => simp [showSettings, h]
    | some p => simp [showSettings, h, and_assoc]
  · intro p hp ht _
    simp [showSettings, hp, ht]

/-- C3 witness: on `wPersonalCurrent` under `envAll` the route carries a
project id and update permission holds, yet `showSettings` is false; on
`wTeam` it is true. -/
theorem C3_showSettings_witness :
    showSettings envAll wPersonalCurrent = false
    ∧ showSettings envAll wTeam = true :=
  ⟨(C3_showSettings_iff envAll wPersonalCurrent).2 personalProjectEx rfl rfl (by decide),
   (C3_showSettings_iff envAll wTeam).1.mpr ⟨by decide, by decide, by decide⟩⟩

/-- C4: `headerIcon` is the user icon when the current project is
Personal; the project's own icon (default: layer icon) when the current
project is non-Personal and has a (truthy) name; and the home icon when no
project is selected. -/
theorem C4_headerIcon_cases (w : World) :
    (∀ p, w.stores.currentProject = some p → p.type = ProjectType.Personal →
      headerIcon w = { type := IconKind.icon, value := "user" })
    ∧ (∀ p, w.stores.currentProject = some p → ¬ p.type = ProjectType.Personal →
        strTruthy p.name = true →
        headerIcon w = p.icon.getD { type := IconKind.icon, value := "layer-group" })
    ∧ (w.stores.currentProject = none →
        headerIcon w = { type := IconKind.icon, value := "home" }) := by
  refine ⟨?_, ?_, ?_⟩
  · intro p hp ht
    simp [headerIcon, hp, ht]
  · intro p hp ht hn
    simp [headerIcon, hp, ht, hn]
  · intro h
    simp [headerIcon, h]

/-- C4 witness: the three cases at concrete states (personal current
project; team project named with no custom icon; no project). -/
theorem C4_headerIcon_witness :
    headerIcon wPersonalCurrent = { type := IconKind.icon, value := "user" }
    ∧ headerIcon wTeam = Option.getD teamProject.icon { type := IconKind.icon, value := "layer-group" }
    ∧ headerIcon wEmpty = { type := IconKind.icon, value := "home" } :=
  ⟨(C4_headerIcon_cases wPersonalCurrent).1 personalProjectEx rfl rfl,
   (C4_headerIcon_cases wTeam).2.1 teamProject rfl (by decide) (by decide),
   (C4_headerIcon_cases wEmpty).2.2 rfl⟩

/-- C5: when neither a current nor a personal project exists, selecting
the folder action dispatches no effect (no navigation, no `createFolder`
emission) and leaves the world unchanged. -/
theorem C5_folder_noop_without_home_project (w : World)
    (hc : w.stores.currentProject = none) (hp : w.stores.personalProject = none) :
    onSelect w ActionType.folder = []
    ∧ dispatchSelect w ActionType.folder = w := by
  have h : homeProject w = none := by
    simp [homeProject, hc, hp]
  constructor
  · simp [onSelect, h]
  · simp [dispatchSelect, onSelect, h]

/-- C5 witness: the no-op at the concrete empty world. -/
theorem C5_folder_noop_witness :
    onSelect wEmpty ActionType.folder = []
    ∧ dispatchSelect wEmpty ActionType.folder = wEmpty :=
  C5_folder_noop_without_home_project wEmpty rfl rfl

/-- C6: whenever a home project resolves, selecting the workflow action
dispatches exactly a navigation to the new-workflow route whose query
carries the home project's id as `projectId` and the current route's
`folderId` parameter as `parentFolderId`. -/
theorem C6_workflow_navigates_with_query (w : World) (p : Project)
    (h : homeProject w = some p) :
    onSelect w ActionType.workflow
        = [Effect.navigate (RouteTarget.newWorkflow p.id w.route.params.folderId)]
    ∧ (dispatchSelect w ActionType.workflow).route
        = { name := some RouteName.NEW_WORKFLOW
          , params := { projectId := none, folderId := none, credentialId := none }
          , query := { projectId := some p.id
                     , parentFolderId := w.route.params.folderId } } := by
  constructor
  · simp [onSelect, h, runAction]
  · simp [dispatchSelect, onSelect, h, runAction, applyEffect, routeOfTarget]

/-- C6 witness: at `wTeam` the workflow selection navigates to the
new-workflow route with the team project's id and the route's folder id. -/
theorem C6_workflow_navigates_witness :
    onSelect wTeam ActionType.workflow
        = [Effect.navigate (RouteTarget.newWorkflow teamProject.id wTeam.route.params.folderId)]
    ∧ (dispatchSelect wTeam ActionType.workflow).route
        = { name := some RouteName.NEW_WORKFLOW
          , params := { projectId := none, folderId := none, credentialId := none }
          , query := { projectId := some teamProject.id
                     , parentFolderId := wTeam.route.params.folderId } } :=
  C6_workflow_navigates_with_query wTeam teamProject rfl

/-- C7: `showFolders` is true iff the folders feature flag is enabled and
the route name is the workflow-list or folder-list view. -/
theorem C7_showFolders_iff (w : World) :
    showFolders w = true ↔
      (w.stores.isFoldersFeatureEnabled = true
        ∧ (w.route.name = some RouteName.PROJECTS_WORKFLOWS
            ∨ w.route.name = some RouteName.PROJECTS_FOLDERS)) := by
  simp [showFolders]

/-- C7 witness: at `wTeam` (flag on, workflow-list route) `showFolders`
holds. -/
theorem C7_showFolders_witness : showFolders wTeam = true :=
  (C7_showFolders_iff wTeam).mpr ⟨rfl, Or.inl rfl⟩

/-- C8: a selection step never mutates store state (projects,
source-control, settings), and every dispatched effect is either a router
navigation or the `createFolder` emission. The derived view values are
pure functions of the stores and route by construction. -/
theorem C8_stores_never_mutated (w : World) (a : ActionType) :
    (dispatchSelect w a).stores = w.stores
    ∧ ∀ e ∈ onSelect w a, (∃ t, e = Effect.navigate t) ∨ e = Effect.emitCreateFolder := by
  constructor
  · cases h : homeProject w with
    | none => simp [dispatchSelect, onSelect, h]
    | some p => cases a <;> simp [dispatchSelect, onSelect, h, runAction, applyEffect]
  · intro e _
    cases e with
    | navigate t => exact Or.inl ⟨t, rfl⟩
    | emitCreateFolder => exact Or.inr rfl

/-- C8 witness: the folder selection at `wTeam` leaves the stores intact
and its one dispatched effect is the `createFolder` emission. -/
theorem C8_stores_never_mutated_witness :
    (dispatchSelect wTeam ActionType.folder).stores = wTeam.stores
    ∧ ((∃ t, Effect.emitCreateFolder = Effect.navigate t)
        ∨ Effect.emitCreateFolder = Effect.emitCreateFolder) :=
  ⟨(C8_stores_never_mutated wTeam ActionType.folder).1,
   (C8_stores_never_mutated wTeam ActionType.folder).2 Effect.emitCreateFolder (by decide)⟩

/-- C9: the project id handed to the dispatched effect is the current
project's id when a current project exists, otherwise the personal
project's id; and selection dispatches no effect exactly when both are
absent. -/
theorem C9_effect_uses_home_project_id (w : World) (a : ActionType) :
    (∀ p, w.stores.currentProject = some p → onSelect w a = [runAction w a p.id])
    ∧ (w.stores.currentProject = none →
        ∀ q, w.stores.personalProject = some q → onSelect w a = [runAction w a q.id])
    ∧ (onSelect w a = [] ↔
        (w.stores.currentProject = none ∧ w.stores.personalProject = none)) := by
  refine ⟨?_, ?_, ?_⟩
  · intro p hp
    simp [onSelect, homeProject, hp]
  · intro h q hq
    simp [onSelect, homeProject, h, hq]
  · cases hc : w.stores.currentProject with
    | some p => simp [onSelect, homeProject, hc]
    | none =>
      cases hq : w.stores.personalProject with
      | some q => simp [onSelect, homeProject, hc, hq]
      | none => simp [onSelect, homeProject, hc, hq]

/-- C9 witness: at `wTeam` the effect carries the current project's id, at
`wOverview` the personal project's id, and at `wEmpty` selection is a
no-op. -/
theorem C9_effect_uses_home_project_id_witness :
    onSelect wTeam ActionType.credential
        = [runAction wTeam ActionType.credential teamProject.id]
    ∧ onSelect wOverview ActionType.credential
        = [runAction wOverview ActionType.credential personalProjectEx.id]
    ∧ onSelect wEmpty ActionType.credential = [] :=
  ⟨(C9_effect_uses_home_project_id wTeam ActionType.credential).1 teamProject rfl,
   (C9_effect_uses_home_project_id wOverview ActionType.credential).2.1 rfl personalProjectEx rfl,
   (C9_effect_uses_home_project_id wEmpty ActionType.credential).2.2.mpr ⟨rfl, rfl⟩⟩

/-- C10: the create permission consulted by the disabled flags is resolved
from the home project's scopes; with no current project (overview) the
home project is the personal project, so the personal project's
permissions govern the button's and every menu item's disabled state. -/
theorem C10_overview_uses_personal_permissions (env : Env) (w : World)
    (h : w.stores.currentProject = none) :
    homeProject w = w.stores.personalProject
    ∧ (createWorkflowButton env w).disabled
        = (w.stores.branchReadOnly ||
            !(resourceCreate
                (env.getResourcePermissions (w.stores.personalProject.bind Project.scopes))
                ActionType.workflow))
    ∧ ∀ a ∈ menu env w,
        a.disabled
          = (w.stores.branchReadOnly ||
              !(resourceCreate
                  (env.getResourcePermissions (w.stores.personalProject.bind Project.scopes))
                  a.value)) := by
  have hh : homeProject w = w.stores.personalProject := by
    simp [homeProject, h]
  refine ⟨hh, ?_, ?_⟩
  · simp [createWorkflowButton, hh, resourceCreate]
  · intro a ha
    rw [menu_mem_disabled env w a ha]
    simp [actionDisallowed, createPermFor, homeScopePermissions, hh]

/-- C10 witness: on the overview world with a permissionless resolver, the
create-workflow button is disabled according to the personal project's
permissions. -/
theorem C10_overview_uses_personal_permissions_witness :
    homeProject wOverview = wOverview.stores.personalProject
    ∧ (createWorkflowButton envNone wOverview).disabled
        = (wOverview.stores.branchReadOnly ||
            !(resourceCreate
                (envNone.getResourcePermissions (wOverview.stores.personalProject.bind Project.scopes))
                ActionType.workflow)) :=
  ⟨(C10_overview_uses_personal_permissions envNone wOverview rfl).1,
   (C10_overview_uses_personal_permissions envNone wOverview rfl).2.1⟩

end ProjectHeader
